import Mathlib

/-!
Shallow embedding of the pricing and batch-aggregation logic of the
jersey-batch repository, together with theorems settling the claims
about it.

The pricing engine is `getPriceDetails` / `calculatePrice` (source:
`src/unnamed/part_006`).  The batch aggregation is `groupedItems`
(source: `src/src/components/BatchCart.tsx`) and `totalBill`
(source: `src/unnamed/part_010`).
-/

namespace JerseyBatch

/-- Per-character uppercasing of a string, modelling JavaScript's
`size.toUpperCase()` on the ASCII size tokens the code compares against. -/
def toUpperStr (s : String) : String := ⟨s.data.map Char.toUpper⟩

/-- Contiguous-sublist test on character lists, modelling JavaScript's
`String.prototype.includes`. -/
def containsSub : List Char → List Char → Bool
  | [], sub => sub.isEmpty
  | c :: rest, sub => sub.isPrefixOf (c :: rest) || containsSub rest sub

/-- Substring test on strings: `strIncludes s pat` models `s.includes(pat)`. -/
def strIncludes (s pat : String) : Bool := containsSub s.data pat.data

/-- Result record of the pricing engine, mirroring the `PricingResult`
interface `{ price, category }`. -/
structure PricingResult where
  price : Nat
  category : String
  deriving DecidableEq, Repr

/-- Embedding of `getPriceDetails(product, itemType, size)` from
`src/unnamed/part_006`, branch for branch. -/
def getPriceDetails (product itemType size : String) : PricingResult :=
  let s := toUpperStr size
  let p := product
  if strIncludes p "Jersey" then
    if s ∈ ["4", "6"] then
      { price := if itemType = "Set" then 250 else 150,
        category := "Junior Jerseys (4-6)" }
    else if s ∈ ["8", "10", "12", "14", "16", "18", "20"] then
      { price := if itemType = "Set" then 380 else 200,
        category := "Junior Jerseys (8-20)" }
    else
      let basePrice := 280
      if s ∈ ["2XL", "3XL", "4XL", "2X-LARGE", "3X-LARGE", "4X-LARGE"] then
        { price := basePrice + 30, category := "Adult Plus Size (2XL-4XL)" }
      else if s ∈ ["5XL", "6XL", "7XL", "5X-LARGE", "6X-LARGE", "7X-LARGE"] then
        { price := basePrice + 50, category := "Adult Plus Size (5XL-7XL)" }
      else
        { price := basePrice, category := "Adult Standard" }
  else if p ∈ ["Tshirt", "Shorts", "Pants", "Polo Shirt", "Longsleeves", "Hoodie"] then
    if s ∈ ["2XS", "XS", "2XSMALL", "XSMALL"] then
      { price := 280, category := p ++ " (S-M Sizes)" }
    else if s ∈ ["S", "M", "L", "SMALL", "MEDIUM", "LARGE"] then
      { price := 300, category := p ++ " (L-XL Sizes)" }
    else
      let basePrice := 320
      if s ∈ ["2XL", "3XL", "4XL", "2X-LARGE", "3X-LARGE", "4X-LARGE"] then
        { price := basePrice + 30, category := p ++ " (Plus Size 2XL-4XL)" }
      else if s ∈ ["5XL", "6XL", "7XL", "5X-LARGE", "6X-LARGE", "7X-LARGE"] then
        { price := basePrice + 50, category := p ++ " (Plus Size 5XL-7XL)" }
      else
        { price := basePrice, category := p ++ " (Standard)" }
  else
    { price := 0, category := "Unknown" }

/-- Embedding of `calculatePrice`, the numeric wrapper over `getPriceDetails`. -/
def calculatePrice (product itemType size : String) : Nat :=
  (getPriceDetails product itemType size).price

/-- The three jersey-family product values of the `ProductType` union. -/
def jerseyProducts : List String :=
  ["Basketball Jersey", "Volleyball Jersey", "Esports Jersey"]

/-- The six flat-goods product values tested by exact membership. -/
def flatProducts : List String :=
  ["Tshirt", "Shorts", "Pants", "Polo Shirt", "Longsleeves", "Hoodie"]

/-- Batch item, with the fields of `JerseyItem` (plus the optional stored
price of an order row) that the aggregation reads. -/
structure JerseyItem where
  customerName : String
  customerPhone : Option String
  price : Option Nat
  product : String
  itemType : String
  size : String
  deriving DecidableEq, Repr

/-- Composite grouping key, modelling
`` `${item.customerName}-${item.customerPhone || ""}` ``. -/
def groupKey (it : JerseyItem) : String :=
  it.customerName ++ "-" ++ it.customerPhone.getD ""

/-- One step of the grouping loop: push `it` onto the group keyed `k`,
creating the group at the end when the key is new (JavaScript object
insertion order). -/
def insertItem (k : String) (it : JerseyItem) :
    List (String × List JerseyItem) → List (String × List JerseyItem)
  | [] => [(k, [it])]
  | (k', g) :: rest =>
    if k' = k then (k', g ++ [it]) :: rest else (k', g) :: insertItem k it rest

/-- Embedding of `groupedItems` from `BatchCart.tsx`: a single forEach pass
building a key-indexed record, represented as an insertion-ordered
association list. -/
def groupedItems (items : List JerseyItem) : List (String × List JerseyItem) :=
  items.foldl (fun gs it => insertItem (groupKey it) it gs) []

/-- Effective price of one row in the admin total, modelling
`const price = o.price || calculatePrice(...); Number(price || 0)`:
a stored price that is absent or zero (JavaScript falsy) falls back to
recomputation. -/
def effectivePrice (o : JerseyItem) : Nat :=
  match o.price with
  | some p => if p = 0 then calculatePrice o.product o.itemType o.size else p
  | none => calculatePrice o.product o.itemType o.size

/-- Embedding of the `totalBill` accumulation from `src/unnamed/part_010`:
a single reduce summing each row's effective price. -/
def totalBill (orders : List JerseyItem) : Nat :=
  orders.foldl (fun acc o => acc + effectivePrice o) 0

/-- Modelled from the spec: the per-item price as claim C5 words it —
"the stored price when present, otherwise the recomputed quote price".
Kept separate from `effectivePrice` to compare claim against code. -/
def claimedItemPrice (o : JerseyItem) : Nat :=
  match o.price with
  | some p => p
  | none => calculatePrice o.product o.itemType o.size

/-- First-occurrence deduplication of a list of keys; keeps each key at the
position of its first appearance. -/
def dedupFirst : List String → List String
  | [] => []
  | k :: ks => k :: (dedupFirst ks).filter (fun x => x ≠ k)

/-! Helper lemmas about uppercasing. -/

lemma char_toNat_ofNat (n : Nat) (h : n.isValidChar) : (Char.ofNat n).toNat = n := by
  simp [Char.ofNat, h, Char.ofNatAux, Char.toNat, UInt32.toNat, BitVec.toNat_ofNatLt]

lemma char_toUpper_idem (c : Char) : c.toUpper.toUpper = c.toUpper := by
  unfold Char.toUpper
  by_cases h : c.toNat ≥ 97 ∧ c.toNat ≤ 122
  · rw [if_pos h]
    have hv : (c.toNat - 32).isValidChar := by
      left
      omega
    have ht : (Char.ofNat (c.toNat - 32)).toNat = c.toNat - 32 :=
      char_toNat_ofNat _ hv
    rw [if_neg]
    rw [ht]
    omega
  · rw [if_neg h, if_neg h]

lemma toUpperStr_idem (s : String) : toUpperStr (toUpperStr s) = toUpperStr s := by
  unfold toUpperStr
  congr 1
  rw [List.map_map]
  exact List.map_congr_left fun a _ => char_toUpper_idem a

/-! Helper lemmas about the pricing branches. -/

lemma mem_jersey_strIncludes {p : String} (hp : p ∈ jerseyProducts) :
    strIncludes p "Jersey" = true := by
  simp only [jerseyProducts, List.mem_cons, List.not_mem_nil, or_false] at hp
  rcases hp with rfl | rfl | rfl <;> decide

lemma mem_flat_strIncludes {p : String} (hp : p ∈ flatProducts) :
    strIncludes p "Jersey" = false := by
  simp only [flatProducts, List.mem_cons, List.not_mem_nil, or_false] at hp
  rcases hp with rfl | rfl | rfl | rfl | rfl | rfl <;> decide

lemma quote_jersey_4_6 (p c s : String) (hJ : strIncludes p "Jersey" = true)
    (h : toUpperStr s ∈ ["4", "6"]) :
    getPriceDetails p c s =
      { price := if c = "Set" then 250 else 150, category := "Junior Jerseys (4-6)" } := by
  simp only [List.mem_cons, List.not_mem_nil, or_false] at h
  rcases h with h | h <;> simp [getPriceDetails, hJ, h]

lemma quote_jersey_8_20 (p c s : String) (hJ : strIncludes p "Jersey" = true)
    (h : toUpperStr s ∈ ["8", "10", "12", "14", "16", "18", "20"]) :
    getPriceDetails p c s =
      { price := if c = "Set" then 380 else 200, category := "Junior Jerseys (8-20)" } := by
  simp only [List.mem_cons, List.not_mem_nil, or_false] at h
  rcases h with h | h | h | h | h | h | h <;> simp [getPriceDetails, hJ, h]

lemma quote_jersey_plus_low (p c s : String) (hJ : strIncludes p "Jersey" = true)
    (h : toUpperStr s ∈ ["2XL", "3XL", "4XL", "2X-LARGE", "3X-LARGE", "4X-LARGE"]) :
    getPriceDetails p c s = { price := 310, category := "Adult Plus Size (2XL-4XL)" } := by
  simp only [List.mem_cons, List.not_mem_nil, or_false] at h
  rcases h with h | h | h | h | h | h <;> simp [getPriceDetails, hJ, h]

lemma quote_jersey_plus_high (p c s : String) (hJ : strIncludes p "Jersey" = true)
    (h : toUpperStr s ∈ ["5XL", "6XL", "7XL", "5X-LARGE", "6X-LARGE", "7X-LARGE"]) :
    getPriceDetails p c s = { price := 330, category := "Adult Plus Size (5XL-7XL)" } := by
  simp only [List.mem_cons, List.not_mem_nil, or_false] at h
  rcases h with h | h | h | h | h | h <;> simp [getPriceDetails, hJ, h]

lemma quote_jersey_standard (p c s : String) (hJ : strIncludes p "Jersey" = true)
    (h4 : toUpperStr s ∉ ["4", "6"])
    (h8 : toUpperStr s ∉ ["8", "10", "12", "14", "16", "18", "20"])
    (hl : toUpperStr s ∉ ["2XL", "3XL", "4XL", "2X-LARGE", "3X-LARGE", "4X-LARGE"])
    (hh : toUpperStr s ∉ ["5XL", "6XL", "7XL", "5X-LARGE", "6X-LARGE", "7X-LARGE"]) :
    getPriceDetails p c s = { price := 280, category := "Adult Standard" } := by
  simp [getPriceDetails, hJ, h4, h8, hl, hh]

lemma quote_flat_tiny (p c s : String) (hJ : strIncludes p "Jersey" = false)
    (hpm : p ∈ ["Tshirt", "Shorts", "Pants", "Polo Shirt", "Longsleeves", "Hoodie"])
    (h : toUpperStr s ∈ ["2XS", "XS", "2XSMALL", "XSMALL"]) :
    getPriceDetails p c s = { price := 280, category := p ++ " (S-M Sizes)" } := by
  simp only [List.mem_cons, List.not_mem_nil, or_false] at h
  rcases h with h | h | h | h <;> simp [getPriceDetails, hJ, hpm, h]

lemma quote_flat_sml (p c s : String) (hJ : strIncludes p "Jersey" = false)
    (hpm : p ∈ ["Tshirt", "Shorts", "Pants", "Polo Shirt", "Longsleeves", "Hoodie"])
    (h : toUpperStr s ∈ ["S", "M", "L", "SMALL", "MEDIUM", "LARGE"]) :
    getPriceDetails p c s = { price := 300, category := p ++ " (L-XL Sizes)" } := by
  simp only [List.mem_cons, List.not_mem_nil, or_false] at h
  rcases h with h | h | h | h | h | h <;> simp [getPriceDetails, hJ, hpm, h]

lemma quote_flat_plus_low (p c s : String) (hJ : strIncludes p "Jersey" = false)
    (hpm : p ∈ ["Tshirt", "Shorts", "Pants", "Polo Shirt", "Longsleeves", "Hoodie"])
    (h : toUpperStr s ∈ ["2XL", "3XL", "4XL", "2X-LARGE", "3X-LARGE", "4X-LARGE"]) :
    getPriceDetails p c s = { price := 350, category := p ++ " (Plus Size 2XL-4XL)" } := by
  simp only [List.mem_cons, List.not_mem_nil, or_false] at h
  rcases h with h | h | h | h | h | h <;> simp [getPriceDetails, hJ, hpm, h]

lemma quote_flat_plus_high (p c s : String) (hJ : strIncludes p "Jersey" = false)
    (hpm : p ∈ ["Tshirt", "Shorts", "Pants", "Polo Shirt", "Longsleeves", "Hoodie"])
    (h : toUpperStr s ∈ ["5XL", "6XL", "7XL", "5X-LARGE", "6X-LARGE", "7X-LARGE"]) :
    getPriceDetails p c s = { price := 370, category := p ++ " (Plus Size 5XL-7XL)" } := by
  simp only [List.mem_cons, List.not_mem_nil, or_false] at h
  rcases h with h | h | h | h | h | h <;> simp [getPriceDetails, hJ, hpm, h]

lemma quote_flat_standard (p c s : String) (hJ : strIncludes p "Jersey" = false)
    (hpm : p ∈ ["Tshirt", "Shorts", "Pants", "Polo Shirt", "Longsleeves", "Hoodie"])
    (ht : toUpperStr s ∉ ["2XS", "XS", "2XSMALL", "XSMALL"])
    (hs : toUpperStr s ∉ ["S", "M", "L", "SMALL", "MEDIUM", "LARGE"])
    (hl : toUpperStr s ∉ ["2XL", "3XL", "4XL", "2X-LARGE", "3X-LARGE", "4X-LARGE"])
    (hh : toUpperStr s ∉ ["5XL", "6XL", "7XL", "5X-LARGE", "6X-LARGE", "7X-LARGE"]) :
    getPriceDetails p c s = { price := 320, category := p ++ " (Standard)" } := by
  simp [getPriceDetails, hJ, hpm, ht, hs, hl, hh]

lemma append_ne_unknown (p q : String) (hq : 7 < q.length) : p ++ q ≠ "Unknown" := by
  intro h
  have hl := congrArg String.length h
  rw [String.length_append] at hl
  have h7 : ("Unknown" : String).length = 7 := rfl
  omega

lemma quote_unknown (p c s : String) (hJ : strIncludes p "Jersey" = false)
    (hp : p ∉ ["Tshirt", "Shorts", "Pants", "Polo Shirt", "Longsleeves", "Hoodie"]) :
    getPriceDetails p c s = { price := 0, category := "Unknown" } := by
  simp [getPriceDetails, hJ, hp]

lemma getPriceDetails_price_mem (p c s : String) :
    (getPriceDetails p c s).price ∈
      [0, 150, 200, 250, 280, 300, 310, 320, 330, 350, 370, 380] := by
  by_cases hJ : strIncludes p "Jersey" = true
  · by_cases h4 : toUpperStr s ∈ ["4", "6"]
    · rw [quote_jersey_4_6 p c s hJ h4]
      by_cases hc : c = "Set" <;> simp [hc]
    · by_cases h8 : toUpperStr s ∈ ["8", "10", "12", "14", "16", "18", "20"]
      · rw [quote_jersey_8_20 p c s hJ h8]
        by_cases hc : c = "Set" <;> simp [hc]
      · by_cases hl : toUpperStr s ∈ ["2XL", "3XL", "4XL", "2X-LARGE", "3X-LARGE", "4X-LARGE"]
        · rw [quote_jersey_plus_low p c s hJ hl]
          simp
        · by_cases hh : toUpperStr s ∈ ["5XL", "6XL", "7XL", "5X-LARGE", "6X-LARGE", "7X-LARGE"]
          · rw [quote_jersey_plus_high p c s hJ hh]
            simp
          · rw [quote_jersey_standard p c s hJ h4 h8 hl hh]
            simp
  · have hJ2 : strIncludes p "Jersey" = false := by simpa using hJ
    by_cases hpm : p ∈ ["Tshirt", "Shorts", "Pants", "Polo Shirt", "Longsleeves", "Hoodie"]
    · by_cases ht : toUpperStr s ∈ ["2XS", "XS", "2XSMALL", "XSMALL"]
      · rw [quote_flat_tiny p c s hJ2 hpm ht]
        simp
      · by_cases hsml : toUpperStr s ∈ ["S", "M", "L", "SMALL", "MEDIUM", "LARGE"]
        · rw [quote_flat_sml p c s hJ2 hpm hsml]
          simp
        · by_cases hl : toUpperStr s ∈ ["2XL", "3XL", "4XL", "2X-LARGE", "3X-LARGE", "4X-LARGE"]
          · rw [quote_flat_plus_low p c s hJ2 hpm hl]
            simp
          · by_cases hh : toUpperStr s ∈ ["5XL", "6XL", "7XL", "5X-LARGE", "6X-LARGE", "7X-LARGE"]
            · rw [quote_flat_plus_high p c s hJ2 hpm hh]
              simp
            · rw [quote_flat_standard p c s hJ2 hpm ht hsml hl hh]
              simp
    · rw [quote_unknown p c s hJ2 hpm]
      simp

/-- C1: for every jersey-family productType, coverage and size, the quote is
given by the size tier of the uppercased size — 250/150 (Set/other) with
category "Junior Jerseys (4-6)" for sizes 4 and 6; 380/200 with
"Junior Jerseys (8-20)" for sizes 8-20; 310 with
"Adult Plus Size (2XL-4XL)" and 330 with "Adult Plus Size (5XL-7XL)" for the
plus tokens regardless of coverage; and 280 with "Adult Standard" for every
other size token regardless of coverage. -/
theorem jersey_family_pricing (p c s : String) (hp : p ∈ jerseyProducts) :
    (toUpperStr s ∈ ["4", "6"] →
      getPriceDetails p c s =
        { price := if c = "Set" then 250 else 150, category := "Junior Jerseys (4-6)" }) ∧
    (toUpperStr s ∈ ["8", "10", "12", "14", "16", "18", "20"] →
      getPriceDetails p c s =
        { price := if c = "Set" then 380 else 200, category := "Junior Jerseys (8-20)" }) ∧
    (toUpperStr s ∈ ["2XL", "3XL", "4XL", "2X-LARGE", "3X-LARGE", "4X-LARGE"] →
      getPriceDetails p c s = { price := 310, category := "Adult Plus Size (2XL-4XL)" }) ∧
    (toUpperStr s ∈ ["5XL", "6XL", "7XL", "5X-LARGE", "6X-LARGE", "7X-LARGE"] →
      getPriceDetails p c s = { price := 330, category := "Adult Plus Size (5XL-7XL)" }) ∧
    (toUpperStr s ∉ ["4", "6"] →
      toUpperStr s ∉ ["8", "10", "12", "14", "16", "18", "20"] →
      toUpperStr s ∉ ["2XL", "3XL", "4XL", "2X-LARGE", "3X-LARGE", "4X-LARGE"] →
      toUpperStr s ∉ ["5XL", "6XL", "7XL", "5X-LARGE", "6X-LARGE", "7X-LARGE"] →
      getPriceDetails p c s = { price := 280, category := "Adult Standard" }) := by
  have hJ : strIncludes p "Jersey" = true := mem_jersey_strIncludes hp
  exact ⟨quote_jersey_4_6 p c s hJ, quote_jersey_8_20 p c s hJ,
    quote_jersey_plus_low p c s hJ, quote_jersey_plus_high p c s hJ,
    quote_jersey_standard p c s hJ⟩

/-- Witness for C1 at a concrete input. -/
theorem jersey_family_pricing_witness :
    getPriceDetails "Basketball Jersey" "Set" "4" =
      { price := 250, category := "Junior Jerseys (4-6)" } :=
  ((jersey_family_pricing "Basketball Jersey" "Set" "4" (by decide)).1
    (by decide)).trans (by decide)

/-- C2: for every flat-goods productType and every coverage, the quote is
independent of coverage and determined by the uppercased size token alone:
280 with "{productType} (S-M Sizes)" for the tiny tokens, 300 with
"{productType} (L-XL Sizes)" for the S/M/L tokens, 350 and 370 for the two
plus tiers, and 320 with "{productType} (Standard)" for every other token. -/
theorem flat_goods_pricing (p c s : String) (hp : p ∈ flatProducts) :
    (toUpperStr s ∈ ["2XS", "XS", "2XSMALL", "XSMALL"] →
      getPriceDetails p c s = { price := 280, category := p ++ " (S-M Sizes)" }) ∧
    (toUpperStr s ∈ ["S", "M", "L", "SMALL", "MEDIUM", "LARGE"] →
      getPriceDetails p c s = { price := 300, category := p ++ " (L-XL Sizes)" }) ∧
    (toUpperStr s ∈ ["2XL", "3XL", "4XL", "2X-LARGE", "3X-LARGE", "4X-LARGE"] →
      getPriceDetails p c s = { price := 350, category := p ++ " (Plus Size 2XL-4XL)" }) ∧
    (toUpperStr s ∈ ["5XL", "6XL", "7XL", "5X-LARGE", "6X-LARGE", "7X-LARGE"] →
      getPriceDetails p c s = { price := 370, category := p ++ " (Plus Size 5XL-7XL)" }) ∧
    (toUpperStr s ∉ ["2XS", "XS", "2XSMALL", "XSMALL"] →
      toUpperStr s ∉ ["S", "M", "L", "SMALL", "MEDIUM", "LARGE"] →
      toUpperStr s ∉ ["2XL", "3XL", "4XL", "2X-LARGE", "3X-LARGE", "4X-LARGE"] →
      toUpperStr s ∉ ["5XL", "6XL", "7XL", "5X-LARGE", "6X-LARGE", "7X-LARGE"] →
      getPriceDetails p c s = { price := 320, category := p ++ " (Standard)" }) := by
  have hJ : strIncludes p "Jersey" = false := mem_flat_strIncludes hp
  have hpm : p ∈ ["Tshirt", "Shorts", "Pants", "Polo Shirt", "Longsleeves", "Hoodie"] := hp
  exact ⟨quote_flat_tiny p c s hJ hpm, quote_flat_sml p c s hJ hpm,
    quote_flat_plus_low p c s hJ hpm, quote_flat_plus_high p c s hJ hpm,
    quote_flat_standard p c s hJ hpm⟩

/-- Witness for C2 at a concrete input. -/
theorem flat_goods_pricing_witness :
    getPriceDetails "Hoodie" "Set" "XS" =
      { price := 280, category := "Hoodie (S-M Sizes)" } :=
  (flat_goods_pricing "Hoodie" "Set" "XS" (by decide)).1 (by decide)

/-- C3 counterexample: the productType "Jersey" is outside both fixed
product sets, yet its quote is 280 / "Adult Standard", not 0 / "Unknown",
because the code tests `p.includes("Jersey")`, not set membership. -/
theorem unknown_product_cex :
    ("Jersey" ∉ jerseyProducts ∧ "Jersey" ∉ flatProducts) ∧
    getPriceDetails "Jersey" "Set" "XL" =
      { price := 280, category := "Adult Standard" } ∧
    getPriceDetails "Jersey" "Set" "XL" ≠ { price := 0, category := "Unknown" } := by
  decide

/-- C3 amended: for every productType whose text does not contain the
substring "Jersey" and that is not a member of the flat-goods set, and for
every coverage and size, the quote is price 0 and category "Unknown". -/
theorem unknown_product_amended (p c s : String)
    (h1 : strIncludes p "Jersey" = false) (h2 : p ∉ flatProducts) :
    getPriceDetails p c s = { price := 0, category := "Unknown" } := by
  have h2m : p ∉ ["Tshirt", "Shorts", "Pants", "Polo Shirt", "Longsleeves", "Hoodie"] := h2
  exact quote_unknown p c s h1 h2m

/-- Witness for the amended C3 at a concrete input. -/
theorem unknown_product_amended_witness :
    getPriceDetails "Mug" "Set" "M" = { price := 0, category := "Unknown" } :=
  unknown_product_amended "Mug" "Set" "M" (by decide) (by decide)

/-- C4: the quote function is total (it is a Lean function on all string
triples), its price is a non-negative whole number, and the price is 0
exactly when the category is "Unknown". -/
theorem quote_total_zero_iff_unknown (p c s : String) :
    0 ≤ (getPriceDetails p c s).price ∧
    ((getPriceDetails p c s).price = 0 ↔
      (getPriceDetails p c s).category = "Unknown") := by
  refine ⟨Nat.zero_le _, ?_⟩
  by_cases hJ : strIncludes p "Jersey" = true
  · by_cases h4 : toUpperStr s ∈ ["4", "6"]
    · rw [quote_jersey_4_6 p c s hJ h4]
      by_cases hc : c = "Set" <;> simp [hc]
    · by_cases h8 : toUpperStr s ∈ ["8", "10", "12", "14", "16", "18", "20"]
      · rw [quote_jersey_8_20 p c s hJ h8]
        by_cases hc : c = "Set" <;> simp [hc]
      · by_cases hl : toUpperStr s ∈ ["2XL", "3XL", "4XL", "2X-LARGE", "3X-LARGE", "4X-LARGE"]
        · rw [quote_jersey_plus_low p c s hJ hl]
          simp
        · by_cases hh : toUpperStr s ∈ ["5XL", "6XL", "7XL", "5X-LARGE", "6X-LARGE", "7X-LARGE"]
          · rw [quote_jersey_plus_high p c s hJ hh]
            simp
          · rw [quote_jersey_standard p c s hJ h4 h8 hl hh]
            simp
  · have hJ2 : strIncludes p "Jersey" = false := by simpa using hJ
    by_cases hpm : p ∈ ["Tshirt", "Shorts", "Pants", "Polo Shirt", "Longsleeves", "Hoodie"]
    · by_cases ht : toUpperStr s ∈ ["2XS", "XS", "2XSMALL", "XSMALL"]
      · rw [quote_flat_tiny p c s hJ2 hpm ht]
        simp [append_ne_unknown p " (S-M Sizes)" (by decide)]
      · by_cases hsml : toUpperStr s ∈ ["S", "M", "L", "SMALL", "MEDIUM", "LARGE"]
        · rw [quote_flat_sml p c s hJ2 hpm hsml]
          simp [append_ne_unknown p " (L-XL Sizes)" (by decide)]
        · by_cases hl : toUpperStr s ∈ ["2XL", "3XL", "4XL", "2X-LARGE", "3X-LARGE", "4X-LARGE"]
          · rw [quote_flat_plus_low p c s hJ2 hpm hl]
            simp [append_ne_unknown p " (Plus Size 2XL-4XL)" (by decide)]
          · by_cases hh : toUpperStr s ∈ ["5XL", "6XL", "7XL", "5X-LARGE", "6X-LARGE", "7X-LARGE"]
            · rw [quote_flat_plus_high p c s hJ2 hpm hh]
              simp [append_ne_unknown p " (Plus Size 5XL-7XL)" (by decide)]
            · rw [quote_flat_standard p c s hJ2 hpm ht hsml hl hh]
              simp [append_ne_unknown p " (Standard)" (by decide)]
    · rw [quote_unknown p c s hJ2 hpm]
      simp

/-- C6: the quote is invariant under uppercasing the size argument. -/
theorem quote_size_case_insensitive (p c s : String) :
    getPriceDetails p c s = getPriceDetails p c (toUpperStr s) := by
  simp only [getPriceDetails, toUpperStr_idem]

/-- C7: the quote is a deterministic pure function of its three inputs —
two calls on identical inputs return identical results. -/
theorem quote_deterministic (p₁ c₁ s₁ p₂ c₂ s₂ : String)
    (hp : p₁ = p₂) (hc : c₁ = c₂) (hs : s₁ = s₂) :
    getPriceDetails p₁ c₁ s₁ = getPriceDetails p₂ c₂ s₂ := by
  rw [hp, hc, hs]

/-- Witness for C7 at a concrete input. -/
theorem quote_deterministic_witness :
    getPriceDetails "Hoodie" "Set" "XS" = getPriceDetails "Hoodie" "Set" "XS" :=
  quote_deterministic "Hoodie" "Set" "XS" "Hoodie" "Set" "XS" rfl rfl rfl

/-- C8: coverage is compared case-sensitively against the exact string
"Set": on the junior jersey tiers, exactly the coverage "Set" yields the
full-set price (250 or 380) and every other coverage string yields the
partial price (150 or 200). -/
theorem coverage_exact_set (p c s : String) (hp : p ∈ jerseyProducts) :
    (toUpperStr s ∈ ["4", "6"] →
      (getPriceDetails p c s).price = if c = "Set" then 250 else 150) ∧
    (toUpperStr s ∈ ["8", "10", "12", "14", "16", "18", "20"] →
      (getPriceDetails p c s).price = if c = "Set" then 380 else 200) := by
  have hJ : strIncludes p "Jersey" = true := mem_jersey_strIncludes hp
  constructor
  · intro h
    rw [quote_jersey_4_6 p c s hJ h]
  · intro h
    rw [quote_jersey_8_20 p c s hJ h]

/-- Witness for C8 at a concrete input: the lowercase coverage "set" gets
the partial price. -/
theorem coverage_exact_set_witness :
    (getPriceDetails "Basketball Jersey" "set" "4").price = 150 :=
  ((coverage_exact_set "Basketball Jersey" "set" "4" (by decide)).1
    (by decide)).trans (by decide)

/-! Helper lemmas about the batch grouping and total. -/

lemma mem_dedupFirst {x : String} : ∀ {l : List String}, x ∈ dedupFirst l ↔ x ∈ l := by
  intro l
  induction l with
  | nil => simp [dedupFirst]
  | cons k ks ih =>
    by_cases hxk : x = k
    · subst hxk
      simp [dedupFirst]
    · simp [dedupFirst, List.mem_filter, hxk, ih]

lemma nodup_dedupFirst : ∀ l : List String, (dedupFirst l).Nodup := by
  intro l
  induction l with
  | nil => simp [dedupFirst]
  | cons k ks ih =>
    simp only [dedupFirst, List.nodup_cons]
    refine ⟨fun hmem => ?_, ih.filter _⟩
    have := (List.mem_filter.mp hmem).2
    simp at this

lemma dedupFirst_append_singleton (l : List String) (x : String) :
    dedupFirst (l ++ [x]) =
      if x ∈ l then dedupFirst l else dedupFirst l ++ [x] := by
  induction l with
  | nil => simp [dedupFirst]
  | cons k ks ih =>
    simp only [List.cons_append, dedupFirst, List.append_eq]
    rw [ih]
    by_cases hx : x ∈ ks
    · rw [if_pos hx, if_pos (List.mem_cons.mpr (Or.inr hx))]
    · rw [if_neg hx]
      by_cases hxk : x = k
      · subst hxk
        rw [if_pos (List.mem_cons.mpr (Or.inl rfl))]
        simp [List.filter_append]
      · rw [if_neg (by simp [hxk, hx])]
        simp [List.filter_append, hxk]

lemma insertItem_of_not_mem (k : String) (it : JerseyItem) :
    ∀ gs : List (String × List JerseyItem), k ∉ gs.map Prod.fst →
      insertItem k it gs = gs ++ [(k, [it])] := by
  intro gs
  induction gs with
  | nil => intro _; rfl
  | cons hd tl ih =>
    obtain ⟨k', g⟩ := hd
    intro h
    simp only [List.map_cons, List.mem_cons] at h
    push_neg at h
    obtain ⟨h1, h2⟩ := h
    simp only [insertItem, List.cons_append]
    rw [if_neg (fun he => h1 he.symm), ih h2]

lemma insertItem_map_of_mem (it : JerseyItem) (f : String → List JerseyItem)
    (k₀ : String) :
    ∀ K : List String, K.Nodup → k₀ ∈ K →
      insertItem k₀ it (K.map fun k => (k, f k)) =
        K.map fun k => (k, if k = k₀ then f k ++ [it] else f k) := by
  intro K
  induction K with
  | nil => intro _ hk; cases hk
  | cons k ks ih =>
    intro hnd hk
    simp only [List.map_cons, insertItem]
    by_cases he : k = k₀
    · rw [if_pos he, if_pos he]
      subst he
      congr 1
      apply List.map_congr_left
      intro a ha
      have hak : a ≠ k := fun h => (List.nodup_cons.mp hnd).1 (h ▸ ha)
      simp [hak]
    · rw [if_neg he, if_neg he]
      have hk' : k₀ ∈ ks := (List.mem_cons.mp hk).resolve_left fun h => he h.symm
      rw [ih (List.nodup_cons.mp hnd).2 hk']

lemma groupedItems_append_singleton (items : List JerseyItem) (it : JerseyItem) :
    groupedItems (items ++ [it]) = insertItem (groupKey it) it (groupedItems items) := by
  unfold groupedItems
  rw [List.foldl_append]
  rfl

lemma filter_key_eq_nil {l : List JerseyItem} {k : String}
    (h : k ∉ l.map groupKey) : l.filter (fun i => groupKey i = k) = [] := by
  rw [List.filter_eq_nil_iff]
  intro a ha hac
  exact h (List.mem_map.mpr ⟨a, ha, by simpa using hac⟩)

lemma groupedItems_eq (items : List JerseyItem) :
    groupedItems items =
      (dedupFirst (items.map groupKey)).map
        (fun k => (k, items.filter (fun i => groupKey i = k))) := by
  induction items using List.reverseRecOn with
  | nil => rfl
  | append_singleton l a ih =>
    rw [groupedItems_append_singleton, ih]
    simp only [List.map_append, List.map_cons, List.map_nil]
    rw [dedupFirst_append_singleton]
    by_cases hmem : groupKey a ∈ l.map groupKey
    · rw [if_pos hmem,
        insertItem_map_of_mem a _ _ _ (nodup_dedupFirst _) (mem_dedupFirst.mpr hmem)]
      apply List.map_congr_left
      intro k _
      rw [List.filter_append]
      by_cases hka : k = groupKey a
      · subst hka
        simp
      · have hak : ¬groupKey a = k := fun h => hka h.symm
        rw [if_neg hka]
        simp [hak]
    · rw [if_neg hmem, List.map_append,
        insertItem_of_not_mem _ _ _
          (by simpa [List.map_map, Function.comp] using
            fun h => hmem (mem_dedupFirst.mp h))]
      congr 1
      · apply List.map_congr_left
        intro k hk
        have hka : k ≠ groupKey a :=
          fun h => hmem (mem_dedupFirst.mp (h ▸ hk))
        have hak : ¬groupKey a = k := fun h => hka h.symm
        rw [List.filter_append]
        simp [hak]
      · simp [List.filter_append, filter_key_eq_nil hmem]

lemma groupedItems_group_eq_filter {items : List JerseyItem} {k : String}
    {g : List JerseyItem} (hmem : (k, g) ∈ groupedItems items) :
    g = items.filter (fun i => groupKey i = k) := by
  rw [groupedItems_eq] at hmem
  obtain ⟨k', _, heq⟩ := List.mem_map.mp hmem
  obtain ⟨h1, h2⟩ := Prod.mk.injEq .. |>.mp heq
  subst h1
  exact h2.symm

lemma flatten_insertItem (k : String) (it : JerseyItem) :
    ∀ gs : List (String × List JerseyItem),
      List.Perm ((insertItem k it gs).map Prod.snd).flatten
        (((gs.map Prod.snd).flatten) ++ [it]) := by
  intro gs
  induction gs with
  | nil => simp [insertItem]
  | cons hd tl ih =>
    obtain ⟨k', g⟩ := hd
    simp only [insertItem]
    by_cases he : k' = k
    · rw [if_pos he]
      simp only [List.map_cons, List.flatten_cons]
      rw [List.append_assoc, List.append_assoc]
      exact List.Perm.append_left g List.perm_append_comm
    · rw [if_neg he]
      simp only [List.map_cons, List.flatten_cons]
      rw [List.append_assoc]
      exact List.Perm.append_left g ih

lemma flatten_groupedItems (items : List JerseyItem) :
    List.Perm ((groupedItems items).map Prod.snd).flatten items := by
  induction items using List.reverseRecOn with
  | nil => rfl
  | append_singleton l a ih =>
    rw [groupedItems_append_singleton]
    exact (flatten_insertItem _ _ _).trans (ih.append_right [a])

lemma totalBill_loop (orders : List JerseyItem) :
    ∀ acc : Nat, orders.foldl (fun a o => a + effectivePrice o) acc =
      acc + (orders.map effectivePrice).sum := by
  induction orders with
  | nil =>
    intro acc
    simp
  | cons o os ih =>
    intro acc
    simp [List.foldl_cons, ih, Nat.add_assoc]

/-- C10: for every input triple, the numeric wrapper price lies in the
finite set of tabulated prices, and in particular is at most 380. -/
theorem price_range_finite (p c s : String) :
    calculatePrice p c s ∈ [0, 150, 200, 250, 280, 300, 310, 320, 330, 350, 370, 380] ∧
    calculatePrice p c s ≤ 380 := by
  have h := getPriceDetails_price_mem p c s
  refine ⟨h, ?_⟩
  simp only [calculatePrice]
  simp only [List.mem_cons, List.not_mem_nil, or_false] at h
  rcases h with h | h | h | h | h | h | h | h | h | h | h | h <;> omega

/-- C5 counterexample: an item whose stored price is 0 is present, yet the
code re-prices it (JavaScript `||` treats 0 as falsy), so the total is the
recomputed 280, not the 0 the claim's "stored price when present" formula
gives. -/
theorem aggregator_total_cex :
    totalBill [(⟨"A", none, some 0, "Basketball Jersey", "Set", "XL"⟩ : JerseyItem)] = 280 ∧
    (([(⟨"A", none, some 0, "Basketball Jersey", "Set", "XL"⟩ : JerseyItem)] :
      List JerseyItem).map claimedItemPrice).sum = 0 ∧
    totalBill [(⟨"A", none, some 0, "Basketball Jersey", "Set", "XL"⟩ : JerseyItem)] ≠
      (([(⟨"A", none, some 0, "Basketball Jersey", "Set", "XL"⟩ : JerseyItem)] :
        List JerseyItem).map claimedItemPrice).sum := by
  decide

/-- C5 amended: the aggregator total equals the sum over all items of the
effective price (the stored price when present and nonzero, otherwise the
recomputed quote price), and the grouping has exactly one group per distinct
customer key, ordered by first appearance, with each group holding exactly
its items in input order. -/
theorem aggregator_total_grouping (items : List JerseyItem) :
    totalBill items = (items.map effectivePrice).sum ∧
    (groupedItems items).map Prod.fst = dedupFirst (items.map groupKey) ∧
    ((groupedItems items).map Prod.fst).Nodup ∧
    ∀ k g, (k, g) ∈ groupedItems items →
      g = items.filter (fun i => groupKey i = k) := by
  have hkeys : (groupedItems items).map Prod.fst = dedupFirst (items.map groupKey) := by
    rw [groupedItems_eq, List.map_map]
    have hcomp :
        (Prod.fst ∘ fun k => (k, items.filter (fun i => groupKey i = k))) = id := rfl
    rw [hcomp, List.map_id]
  refine ⟨?_, hkeys, hkeys ▸ nodup_dedupFirst _, ?_⟩
  · simpa using totalBill_loop items 0
  · intro k g hmem
    exact groupedItems_group_eq_filter hmem

/-- Witness for the amended C5 at a concrete input. -/
theorem aggregator_total_grouping_witness :
    ([(⟨"A", none, some 100, "Tshirt", "Set", "M"⟩ : JerseyItem)] :
      List JerseyItem).filter (fun i => groupKey i = "A-") =
      [(⟨"A", none, some 100, "Tshirt", "Set", "M"⟩ : JerseyItem)] :=
  ((aggregator_total_grouping
    [(⟨"A", none, some 100, "Tshirt", "Set", "M"⟩ : JerseyItem)]).2.2.2
    "A-"
    [(⟨"A", none, some 100, "Tshirt", "Set", "M"⟩ : JerseyItem)]
    (by decide)).symm

/-- C9: the grouping partitions its input — the concatenation of all groups
is a permutation of the input list (no item dropped or duplicated), and each
group is exactly the sub-sequence of input items with that key, in input
order. -/
theorem grouping_partition (items : List JerseyItem) :
    List.Perm ((groupedItems items).map Prod.snd).flatten items ∧
    ∀ k g, (k, g) ∈ groupedItems items →
      g = items.filter (fun i => groupKey i = k) := by
  refine ⟨flatten_groupedItems items, ?_⟩
  intro k g hmem
  exact groupedItems_group_eq_filter hmem

/-- Witness for C9 at a concrete input. -/
theorem grouping_partition_witness :
    ([(⟨"B", some "09", none, "Hoodie", "Set", "XS"⟩ : JerseyItem)] :
      List JerseyItem).filter (fun i => groupKey i = "B-09") =
      [(⟨"B", some "09", none, "Hoodie", "Set", "XS"⟩ : JerseyItem)] :=
  ((grouping_partition
    [(⟨"B", some "09", none, "Hoodie", "Set", "XS"⟩ : JerseyItem)]).2
    "B-09"
    [(⟨"B", some "09", none, "Hoodie", "Set", "XS"⟩ : JerseyItem)]
    (by decide)).symm

end JerseyBatch
